import Mathlib

/-!
Verification of the `openrouter-client` package: a shallow embedding of
`text.ts` (OpenRouterTextService.completeText, OpenRouterImageService.generateImage,
parseImageUrl), `models.ts` (OpenRouterModelsService.listModels),
`utils.ts` (decodeBase64ToArrayBuffer) and `types.ts` (OpenRouterClient
constructor / createOpenRouterClient).

JavaScript semantics modelled explicitly: parsed JSON values (`JVal`),
truthiness, optional chaining, `atob` (WHATWG forgiving-base64), the
data-URL regular expressions, and string coercion.  The network is an
oracle `Net : String → HttpResponse`; every operation returns its result
together with the list of URLs fetched, in order, so that "no network
call is attempted" is the statement that this list is empty.
-/

namespace ORC

/-- JSON values as produced by `JSON.parse` (object fields in insertion
order; parse output has unique keys). -/
inductive JVal where
  | null
  | bool (b : Bool)
  | num (n : Int)
  | str (s : String)
  | arr (xs : List JVal)
  | obj (fields : List (String × JVal))

/-- JavaScript truthiness of a JSON value. -/
def jsTruthy : JVal → Bool
  | .null => false
  | .bool b => b
  | .num n => n != 0
  | .str s => s != ""
  | .arr _ => true
  | .obj _ => true

/-- Truthiness of a possibly-undefined value (`undefined` is falsy). -/
def optTruthy : Option JVal → Bool
  | some v => jsTruthy v
  | none => false

/-- Plain property access `v.k` on a non-null value: objects yield the
field (or undefined), primitives and arrays yield undefined. -/
def getField : JVal → String → Option JVal
  | .obj fs, k => fs.lookup k
  | _, _ => none

/-- Optional-chain property access `o?.k`. -/
def optF (o : Option JVal) (k : String) : Option JVal :=
  match o with
  | some (.null) => none
  | some v => getField v k
  | none => none

/-- Optional-chain index access `o?.[0]`. -/
def optIdx0 (o : Option JVal) : Option JVal :=
  match o with
  | some (.arr xs) => xs.head?
  | some (.obj fs) => fs.lookup "0"
  | some (.str s) => if s.data.isEmpty then none else some (.str (String.mk (s.data.take 1)))
  | _ => none

/-- `typeof v` for a JSON value (an absent value has typeof "undefined"). -/
def jsTypeof : Option JVal → String
  | none => "undefined"
  | some (.null) => "object"
  | some (.bool _) => "boolean"
  | some (.num _) => "number"
  | some (.str _) => "string"
  | some (.arr _) => "object"
  | some (.obj _) => "object"

/-- `v.length` (via optional chain): arrays and strings have a length,
other values yield undefined (objects only via an explicit field). -/
def optLength (o : Option JVal) : Option Nat :=
  match o with
  | some (.arr xs) => some xs.length
  | some (.str s) => some s.data.length
  | _ => none

/-- `Object.keys` of a JSON value. -/
def objectKeys : JVal → List String
  | .obj fs => fs.map (·.1)
  | .arr xs => (List.range xs.length).map toString
  | .str s => (List.range s.data.length).map toString
  | _ => []

mutual

/-- JavaScript `String(v)` coercion of a JSON value. -/
def jsToString : JVal → String
  | .null => "null"
  | .bool b => if b then "true" else "false"
  | .num n => toString n
  | .str s => s
  | .arr xs => String.intercalate "," (jsToStringList xs)
  | .obj _ => "[object Object]"

/-- Array elements under `Array.prototype.toString`: null elements
stringify to the empty string. -/
def jsToStringList : List JVal → List String
  | [] => []
  | .null :: rest => "" :: jsToStringList rest
  | v :: rest => jsToString v :: jsToStringList rest

end

/-- ASCII whitespace stripped by forgiving-base64 (`atob`). -/
def isAsciiWs (c : Char) : Bool :=
  c == ' ' || c == '\t' || c == '\n' || c == '\x0c' || c == '\r'

/-- The character set matched by the JavaScript regex class `\s`. -/
def jsIsSpace (c : Char) : Bool :=
  c == ' ' || c == '\t' || c == '\n' || c == '\r' || c == '\x0b' || c == '\x0c' ||
  c == ' ' || c == ' ' || (0x2000 ≤ c.toNat && c.toNat ≤ 0x200a) ||
  c == ' ' || c == ' ' || c == ' ' || c == ' ' ||
  c == '　' || c == '﻿'

/-- Value of a base64 alphabet character. -/
def base64Val (c : Char) : Option Nat :=
  if 65 ≤ c.toNat && c.toNat ≤ 90 then some (c.toNat - 65)
  else if 97 ≤ c.toNat && c.toNat ≤ 122 then some (c.toNat - 97 + 26)
  else if 48 ≤ c.toNat && c.toNat ≤ 57 then some (c.toNat - 48 + 52)
  else if c == '+' then some 62
  else if c == '/' then some 63
  else none

/-- Forgiving-base64 padding removal: when the length is a multiple of
four, up to two trailing `=` signs are dropped. -/
def stripBase64Pad (cs : List Char) : List Char :=
  if cs.length % 4 = 0 then
    match cs.reverse with
    | '=' :: '=' :: rest => rest.reverse
    | '=' :: rest => rest.reverse
    | r => r.reverse
  else cs

/-- Decode a list of 6-bit groups into bytes (a trailing group of one
character was rejected earlier; leftover low bits are discarded). -/
def b64Bytes : List Nat → List Nat
  | a :: b :: c :: d :: rest =>
      (a * 4 + b / 16) :: ((b % 16) * 16 + c / 4) :: ((c % 4) * 64 + d) :: b64Bytes rest
  | [a, b] => [a * 4 + b / 16]
  | [a, b, c] => [a * 4 + b / 16, (b % 16) * 16 + c / 4]
  | _ => []

/-- WHATWG forgiving-base64 decode, the semantics of `atob`; `none`
models the InvalidCharacterError `atob` throws. -/
def atobDecode (s : String) : Option (List Nat) :=
  let cs := stripBase64Pad (s.data.filter (fun c => !isAsciiWs c))
  if cs.length % 4 = 1 then none
  else
    match cs.mapM base64Val with
    | none => none
    | some vs => some (b64Bytes vs)

/-- `decodeBase64ToArrayBuffer` from `utils.ts`: `atob` plus charCode
extraction, which is exactly the decoded byte list.  The argument is
coerced to a string first (JavaScript `ToString`), as `atob` does. -/
def decodeBase64ToArrayBuffer (v : JVal) : Option (List Nat) :=
  atobDecode (jsToString v)

/-- `s.startsWith(pre)`. -/
def strStarts (s pre : String) : Bool :=
  pre.data.isPrefixOf s.data

/-- `s.trim()`. -/
def jsTrim (s : String) : String :=
  String.mk (((s.data.dropWhile jsIsSpace).reverse.dropWhile jsIsSpace).reverse)

/-- One attempt of `/data:image\/([^;]+);base64,(.+)/` at the current
position: the literal prefix, a nonempty run without `;` (group 1),
the literal `;base64,`, then a nonempty run without line terminators
(group 2, `.` does not match line terminators). -/
def matchDataUrlAt (cs : List Char) : Option (List Char × List Char) :=
  if "data:image/".data.isPrefixOf cs then
    let rest := cs.drop 11
    let g1 := rest.takeWhile (fun c => c != ';')
    let r2 := rest.dropWhile (fun c => c != ';')
    if !g1.isEmpty && ";base64,".data.isPrefixOf r2 then
      let g2 := (r2.drop 8).takeWhile (fun c => c != '\n' && c != '\r')
      if !g2.isEmpty then some (g1, g2) else none
    else none
  else none

/-- Unanchored search used by `String.prototype.match`: first position
where the data-URL pattern matches. -/
def scanDataUrl : List Char → Option (List Char × List Char)
  | [] => none
  | c :: rest =>
    match matchDataUrlAt (c :: rest) with
    | some r => some r
    | none => scanDataUrl rest

/-- `url.match(/data:image\/([^;]+);base64,(.+)/)` as the pair
(group 1 = MIME subtype, group 2 = base64 payload). -/
def dataUrlMatch (s : String) : Option (String × String) :=
  (scanDataUrl s.data).map (fun p => (String.mk p.1, String.mk p.2))

/-- One attempt of `/data:image\/([^;]+)/` at the current position. -/
def matchMimeAt (cs : List Char) : Option (List Char) :=
  if "data:image/".data.isPrefixOf cs then
    let g1 := (cs.drop 11).takeWhile (fun c => c != ';')
    if !g1.isEmpty then some g1 else none
  else none

/-- Unanchored search for `/data:image\/([^;]+)/`. -/
def scanMime : List Char → Option (List Char)
  | [] => none
  | c :: rest =>
    match matchMimeAt (c :: rest) with
    | some r => some r
    | none => scanMime rest

/-- `url.match(/data:image\/([^;]+)/)`, group 1. -/
def mimeMatch (s : String) : Option String :=
  (scanMime s.data).map String.mk

/-- A base64-plausible character, the class `[A-Za-z0-9+/=]`. -/
def isB64ish (c : Char) : Bool :=
  (65 ≤ c.toNat && c.toNat ≤ 90) || (97 ≤ c.toNat && c.toNat ≤ 122) ||
  (48 ≤ c.toNat && c.toNat ≤ 57) || c == '+' || c == '/' || c == '='

/-- `/^[A-Za-z0-9+/=]+$/.test(content.replace(/\s/g, ""))`: the
whitespace-stripped string is nonempty and entirely base64-plausible. -/
def bareBase64Test (s : String) : Bool :=
  let stripped := s.data.filter (fun c => !jsIsSpace c)
  !stripped.isEmpty && stripped.all isB64ish

/-- JSON string escaping as performed by `JSON.stringify`. -/
def jsonEscapeChar (c : Char) : String :=
  if c = '"' then "\\\""
  else if c = '\\' then "\\\\"
  else if c = '\x08' then "\\b"
  else if c = '\t' then "\\t"
  else if c = '\n' then "\\n"
  else if c = '\x0c' then "\\f"
  else if c = '\r' then "\\r"
  else if c.toNat < 32 then
    "\\u00" ++ String.mk [(Nat.digitChar (c.toNat / 16)), (Nat.digitChar (c.toNat % 16))]
  else String.singleton c

/-- A JSON-quoted string literal. -/
def jsonQuote (s : String) : String :=
  "\"" ++ String.join (s.data.map jsonEscapeChar) ++ "\""

/-- Indentation of `n` spaces. -/
def indentSp (n : Nat) : String :=
  String.mk (List.replicate n ' ')

mutual

/-- `JSON.stringify(v, null, 2)` at the given current indentation. -/
def stringifyPretty (ind : Nat) : JVal → String
  | .null => "null"
  | .bool b => if b then "true" else "false"
  | .num n => toString n
  | .str s => jsonQuote s
  | .arr [] => "[]"
  | .arr (x :: xs) =>
    "[\n" ++ String.intercalate ",\n"
      ((stringifyItems (ind + 2) (x :: xs)).map (fun it => indentSp (ind + 2) ++ it)) ++
    "\n" ++ indentSp ind ++ "]"
  | .obj [] => "\x7b\x7d"
  | .obj (f :: fs) =>
    "\x7b\n" ++ String.intercalate ",\n"
      ((stringifyFields (ind + 2) (f :: fs)).map (fun it => indentSp (ind + 2) ++ it)) ++
    "\n" ++ indentSp ind ++ "\x7d"

/-- Stringify each array element. -/
def stringifyItems (ind : Nat) : List JVal → List String
  | [] => []
  | v :: rest => stringifyPretty ind v :: stringifyItems ind rest

/-- Stringify each object field as `"key": value`. -/
def stringifyFields (ind : Nat) : List (String × JVal) → List String
  | [] => []
  | (k, v) :: rest => (jsonQuote k ++ ": " ++ stringifyPretty ind v) :: stringifyFields ind rest

end

/-- `IOpenRouterConfig` from `types.ts`; absent optional fields are `none`. -/
structure IOpenRouterConfig where
  apiKey : String
  defaultTextModel : String
  defaultImageModel : String
  httpReferer : Option String := none
  xTitle : Option String := none
  imageQuality : Option String := none
  imageStyle : Option String := none
  baseUrl : Option String := none

/-- `TextGenerationRequest` from `types.ts` (sampling parameters kept
abstract; they do not influence response handling). -/
structure TextGenerationRequest where
  systemPrompt : String := ""
  userPayload : JVal := .obj []
  temperature : Option Int := none
  topP : Option Int := none
  model : Option String := none

/-- `ImageGenerationRequest` from `types.ts`. -/
structure ImageGenerationRequest where
  systemPrompt : String := ""
  userPrompt : String := ""
  negativePrompt : Option String := none
  width : Option Nat := none
  height : Option Nat := none
  targetSize : Option String := none
  seed : Option Int := none
  steps : Option Int := none
  guidance : Option Int := none
  model : Option String := none

/-- A `Blob`: decoded bytes plus the MIME type it was constructed with. -/
structure Blob where
  bytes : List Nat
  type : String
deriving DecidableEq

/-- `TextGenerationResponse`: the reply text, the reported model
(`json?.model || model`, an arbitrary JSON value when the upstream sent
a non-string), and the raw reply. -/
structure TextGenerationResponse where
  text : String
  model : JVal
  rawResponse : JVal

/-- `ImageGenerationResponse`: image blob plus reported model. -/
structure ImageGenerationResponse where
  image : Blob
  model : JVal

/-- `architecture` metadata of an `OpenRouterModel` (`types.ts`). -/
structure ModelArchitecture where
  modality : Option String := none
  output_modalities : Option (List String) := none
deriving DecidableEq

/-- `OpenRouterModel` (`types.ts`), restricted to the fields `listModels`
reads: `name` and `architecture.output_modalities`. -/
structure OpenRouterModel where
  id : String
  name : String
  architecture : Option ModelArchitecture := none
deriving DecidableEq

/-- `CategorizedModels` from `types.ts`. -/
structure CategorizedModels where
  text : List OpenRouterModel
  image : List OpenRouterModel
deriving DecidableEq

/-- `ListModelsResponse` from `types.ts`. -/
structure ListModelsResponse where
  models : CategorizedModels
deriving DecidableEq

/-- One HTTP exchange as seen by the client.  `textResult` is the body
text (`none` models a rejected `response.text()` read), `jsonResult`
the result of `JSON.parse` on that body (`none` = invalid JSON),
`bytes`/`contentType` serve `arrayBuffer()` reads of image downloads,
and `modelsJson` the typed view `{data?: OpenRouterModel[]}` of the
models endpoint body (`none` = invalid JSON, `some none` = `data`
missing or not an array). -/
structure HttpResponse where
  ok : Bool
  status : Nat
  statusText : String := ""
  textResult : Option String := some ""
  jsonResult : Option JVal := none
  bytes : List Nat := []
  contentType : Option String := none
  modelsJson : Option (Option (List OpenRouterModel)) := none

/-- The network oracle: the response `fetch` produces for each URL.
Each operation also returns the list of URLs it fetched, in order. -/
abbrev Net := String → HttpResponse

/-- The summary attached to "missing message field" errors
(`text.ts` lines 230–245). -/
structure MsgSummary where
  hasChoices : Bool
  choicesLength : Option Nat
  topLevelKeys : List String

/-- The diagnostic summary attached when no reply shape yielded an
image (`text.ts` lines 406–429). -/
structure ImgSummary where
  model : JVal
  requestedModel : String
  hasChoices : Bool
  choicesLength : Option Nat
  hasData : Bool
  dataLength : Option Nat
  topLevelKeys : List String
  messageKeys : Option (List String)
  hasImages : Bool
  imagesLength : Option Nat
  firstChoiceContentType : String
  firstChoiceContentIsArray : Bool
  firstChoiceContentLength : Option Nat
  firstChoiceContentPreview : Option String
  note : Option String

/-- Every distinguishable failure the client can raise.  Distinct
constructors correspond to the distinct error classes of the source:
configuration, model validation, transport, parse, shape, secondary
download, base64 decode, and the JavaScript TypeErrors the dynamic
field accesses can raise. -/
inductive ORError where
  | missingApiKey (msg : String)
  | invalidModel (msg : String)
  | httpFailed (msg : String)
  | imageHttpFailed (msg : String) (responseText : String) (status : Nat)
  | invalidJson (msg : String) (responseText : String) (status : Nat)
  | parseFailed
  | missingContent (msg : String)
  | missingMessage (summary : MsgSummary) (status : Nat)
  | downloadFailed (msg : String) (responseText : String) (status : Nat)
  | decodeFailed
  | jsTypeError
  | textReadFailed
  | missingImageData (summary : ImgSummary) (status : Nat)
  | modelsInvalidJson (msg : String)
  | modelsInvalidFormat (msg : String)

/-- JavaScript `a || b` on an optional string. -/
def jsOr (o : Option String) (d : String) : String :=
  match o with
  | some s => if s = "" then d else s
  | none => d

/-- JavaScript `v || d` where `v` is a JSON field and `d` a string
(used for `json?.model || model`). -/
def jsOrJ (o : Option JVal) (d : String) : JVal :=
  match o with
  | some v => if jsTruthy v then v else .str d
  | none => .str d

/-- `request.model || this.config.defaultXModel` (`text.ts` lines 23
and 105). -/
def resolveModel (override : Option String) (dflt : String) : String :=
  jsOr override dflt

/-- Default endpoint base. -/
def defaultBaseUrl : String := "https://openrouter.ai/api/v1"

/-- Strict equality test `v === "s"` for a possibly-undefined field. -/
def strictEqStr (v : Option JVal) (s : String) : Bool :=
  match v with
  | some (.str t) => t == s
  | _ => false

/-- Summary for the "missing message field" error (`text.ts` 232–241):
`hasChoices`, `choicesLength`, `Object.keys(json || \x7b\x7d)`. -/
def mkMsgSummary (json : JVal) : MsgSummary :=
  { hasChoices := optTruthy (optF (some json) "choices")
    choicesLength := optLength (optF (some json) "choices")
    topLevelKeys := objectKeys (if jsTruthy json then json else .obj []) }

/-- The note attached when `message.images` is absent (`text.ts` 427). -/
def missingImagesNote : String :=
  "Response does not contain message.images array. The selected model may not support image generation, or the request format may be incorrect. Ensure the model has \x27image\x27 in its output_modalities and that modalities: [\x27image\x27, \x27text\x27] is included in the request."

/-- The diagnostic summary built when every reply shape failed
(`text.ts` 407–429). -/
def mkImgSummary (json : JVal) (model : String) : ImgSummary :=
  let message := optF (optIdx0 (optF (some json) "choices")) "message"
  let images := optF message "images"
  let contentV := optF message "content"
  { model := jsOrJ (optF (some json) "model") model
    requestedModel := model
    hasChoices := optTruthy (optF (some json) "choices")
    choicesLength := optLength (optF (some json) "choices")
    hasData := optTruthy (optF (some json) "data")
    dataLength := optLength (optF (some json) "data")
    topLevelKeys := objectKeys (if jsTruthy json then json else .obj [])
    messageKeys :=
      match message with
      | some m => if jsTruthy m then some (objectKeys m) else none
      | none => none
    hasImages := optTruthy images
    imagesLength := match images with | some (.arr xs) => some xs.length | _ => none
    firstChoiceContentType := jsTypeof contentV
    firstChoiceContentIsArray := match contentV with | some (.arr _) => true | _ => false
    firstChoiceContentLength := match contentV with | some (.str s) => some s.data.length | _ => none
    firstChoiceContentPreview := match contentV with | some (.str s) => some (String.mk (s.data.take 200)) | _ => none
    note := if !(optTruthy images) then some missingImagesNote else none }

/-- `OpenRouterTextService.completeText` (`text.ts` 17–80), from the
credential check through content extraction.  The request body build is
pure data shaping whose only observable input here is the endpoint
URL. -/
def completeText (config : IOpenRouterConfig) (request : TextGenerationRequest) (net : Net) :
    Except ORError TextGenerationResponse × List String :=
  if config.apiKey = "" then
    (.error (.missingApiKey "Missing OPENROUTER_API_KEY in configuration"), [])
  else
    let model := resolveModel request.model config.defaultTextModel
    if model = "" || jsTrim model = "" then
      (.error (.invalidModel "OpenRouter text model is required but was not provided or is invalid"), [])
    else
      let endpoint := jsOr config.baseUrl defaultBaseUrl ++ "/chat/completions"
      let res := net endpoint
      if !res.ok then
        let txt := res.textResult.getD ""
        (.error (.httpFailed ("OpenRouter chat completion failed: " ++ toString res.status ++ " " ++ txt)), [endpoint])
      else
        match res.jsonResult with
        | none => (.error .parseFailed, [endpoint])
        | some json =>
          match optF (optF (optIdx0 (optF (some json) "choices")) "message") "content" with
          | some (.str s) =>
            if s = "" then
              (.error (.missingContent "OpenRouter response missing content"), [endpoint])
            else
              (.ok { text := s, model := jsOrJ (optF (some json) "model") model, rawResponse := json }, [endpoint])
          | _ => (.error (.missingContent "OpenRouter response missing content"), [endpoint])

/-- The image-download block repeated at `text.ts` 295–312, 353–370,
385–402 and 458–472: fetch the URL, fail with the status and body on a
non-2xx reply, otherwise wrap the bytes in a blob typed by the
`content-type` header with default `image/png`. -/
def fetchImage (net : Net) (url : String) : Except ORError Blob × List String :=
  let r := net url
  if !r.ok then
    match r.textResult with
    | none => (.error .textReadFailed, [url])
    | some t => (.error (.downloadFailed ("Failed to download image from URL: " ++ toString r.status) t r.status), [url])
  else
    (.ok { bytes := r.bytes, type := r.contentType.getD "image/png" }, [url])

/-- The HTTP(S) half of `parseImageUrl` (`text.ts` 457–475): fetch an
`http(s)` URL, or report "no blob" for any other scheme. -/
def parseImageUrlHttp (net : Net) (imageUrl : String) : Except ORError (Option Blob) × List String :=
  if strStarts imageUrl "http://" || strStarts imageUrl "https://" then
    match fetchImage net imageUrl with
    | (.error e, l) => (.error e, l)
    | (.ok b, l) => (.ok (some b), l)
  else (.ok none, [])

/-- `OpenRouterImageService.parseImageUrl` (`text.ts` 445–476): decode
a `data:image/...;base64,...` URL (an `atob` failure propagates), else
fetch an HTTP(S) URL, else `null`. -/
def parseImageUrl (net : Net) (imageUrl : String) : Except ORError (Option Blob) × List String :=
  if strStarts imageUrl "data:image/" then
    match dataUrlMatch imageUrl with
    | some (g1, g2) =>
      if g2 != "" then
        let mimeType := if g1 != "" then "image/" ++ g1 else "image/png"
        match atobDecode g2 with
        | some bs => (.ok (some { bytes := bs, type := mimeType }), [])
        | none => (.error .decodeFailed, [])
      else parseImageUrlHttp net imageUrl
    | none => parseImageUrlHttp net imageUrl
  else parseImageUrlHttp net imageUrl

/-- `parseImageUrl` applied to a dynamically-typed url value: calling
`.startsWith` on a truthy non-string throws a TypeError. -/
def parseImageUrlJ (net : Net) (u : JVal) : Except ORError (Option Blob) × List String :=
  match u with
  | .str s => parseImageUrl net s
  | _ => (.error .jsTypeError, [])

/-- The loop over `message.images` (`text.ts` 249–257).  A `null`
element raises a TypeError at `image.type`. -/
def scanImages (net : Net) (mdl : JVal) : List JVal → Except ORError (Option ImageGenerationResponse) × List String
  | [] => (.ok none, [])
  | .null :: _ => (.error .jsTypeError, [])
  | img :: rest =>
    let urlV := optF (getField img "image_url") "url"
    if strictEqStr (getField img "type") "image_url" && optTruthy urlV then
      match parseImageUrlJ net (urlV.getD .null) with
      | (.error e, l) => (.error e, l)
      | (.ok (some b), l) => (.ok (some { image := b, model := mdl }), l)
      | (.ok none, l) =>
        match scanImages net mdl rest with
        | (r, l2) => (r, l ++ l2)
    else scanImages net mdl rest

/-- The loop over multipart `message.content` (`text.ts` 263–289):
per part, an `image_url` sub-object, then a directly embedded base64
`image` string. -/
def scanParts (net : Net) (mdl : JVal) : List JVal → Except ORError (Option ImageGenerationResponse) × List String
  | [] => (.ok none, [])
  | .null :: _ => (.error .jsTypeError, [])
  | p :: rest =>
    let urlV := optF (getField p "image_url") "url"
    if strictEqStr (getField p "type") "image_url" && optTruthy urlV then
      match parseImageUrlJ net (urlV.getD .null) with
      | (.error e, l) => (.error e, l)
      | (.ok (some b), l) => (.ok (some { image := b, model := mdl }), l)
      | (.ok none, l) =>
        match scanParts net mdl rest with
        | (r, l2) => (r, l ++ l2)
    else if strictEqStr (getField p "type") "image" && optTruthy (getField p "image") then
      match getField p "image" with
      | some (.str s) =>
        if strStarts s "data:image/" then
          match dataUrlMatch s with
          | some (g1, g2) =>
            if g2 != "" then
              let mimeType := if g1 != "" then "image/" ++ g1 else "image/png"
              match atobDecode g2 with
              | some bs => (.ok (some { image := { bytes := bs, type := mimeType }, model := mdl }), [])
              | none => (.error .decodeFailed, [])
            else scanParts net mdl rest
          | none => scanParts net mdl rest
        else scanParts net mdl rest
      | _ => scanParts net mdl rest
    else scanParts net mdl rest

/-- Candidate shape 1 (`text.ts` 248–258): the typed `message.images`
array. -/
def tryMessageImages (net : Net) (msg : Option JVal) (mdl : JVal) :
    Except ORError (Option ImageGenerationResponse) × List String :=
  match optF msg "images" with
  | some (.arr xs) => scanImages net mdl xs
  | _ => (.ok none, [])

/-- Candidate shape 2 (`text.ts` 261–290): multipart content parts. -/
def tryContentParts (net : Net) (msg : Option JVal) (mdl : JVal) :
    Except ORError (Option ImageGenerationResponse) × List String :=
  match optF msg "content" with
  | some (.arr parts) => scanParts net mdl parts
  | _ => (.ok none, [])

/-- Shape 3a (`text.ts` 294–313): string content as an HTTP(S) URL. -/
def tryStringHttp (net : Net) (c : String) (mdl : JVal) :
    Except ORError (Option ImageGenerationResponse) × List String :=
  if strStarts c "http://" || strStarts c "https://" then
    match fetchImage net c with
    | (.error e, l) => (.error e, l)
    | (.ok b, l) => (.ok (some { image := b, model := mdl }), l)
  else (.ok none, [])

/-- `content.match(/data:image\/[^;]+;base64,(.+)/)`, the single-group
variant at `text.ts` 317: same positions as the two-group pattern,
keeping only the payload. -/
def dataUrlPayloadMatch (s : String) : Option String :=
  (scanDataUrl s.data).map (fun p => String.mk p.2)

/-- Shape 3b (`text.ts` 316–327): string content as a data-URL; here a
decode failure propagates (no catch). -/
def tryStringDataUrl (c : String) (mdl : JVal) :
    Except ORError (Option ImageGenerationResponse) × List String :=
  if strStarts c "data:image/" then
    match dataUrlPayloadMatch c with
    | some g =>
      if g != "" then
        match atobDecode g with
        | some bs =>
          let mimeType := match mimeMatch c with
            | some m => "image/" ++ m
            | none => "image/png"
          (.ok (some { image := { bytes := bs, type := mimeType }, model := mdl }), [])
        | none => (.error .decodeFailed, [])
      else (.ok none, [])
    | none => (.ok none, [])
  else (.ok none, [])

/-- Shape 3c (`text.ts` 330–343): speculative bare-base64 decode, with
plausibility bounds; both a decode failure (the catch) and an
out-of-bounds size fall through as "no image". -/
def tryStringBare (c : String) (mdl : JVal) :
    Except ORError (Option ImageGenerationResponse) × List String :=
  if decide (100 < c.data.length) && bareBase64Test c then
    match atobDecode c with
    | some bs =>
      if decide (100 < bs.length) && decide (bs.length < 10485760) then
        (.ok (some { image := { bytes := bs, type := "image/png" }, model := mdl }), [])
      else (.ok none, [])
    | none => (.ok none, [])
  else (.ok none, [])

/-- The three encodings tried, in order, on plain string content
(`text.ts` 292–344): HTTP(S) URL, data-URL, bare base64. -/
def tryStringContent (net : Net) (c : String) (mdl : JVal) :
    Except ORError (Option ImageGenerationResponse) × List String :=
  match tryStringHttp net c mdl with
  | (.error e, l) => (.error e, l)
  | (.ok (some x), l) => (.ok (some x), l)
  | (.ok none, l1) =>
    match tryStringDataUrl c mdl with
    | (.error e, l) => (.error e, l1 ++ l)
    | (.ok (some x), l) => (.ok (some x), l1 ++ l)
    | (.ok none, l2) =>
      match tryStringBare c mdl with
      | (r, l) => (r, l1 ++ (l2 ++ l))

/-- Candidate shape 3 (`text.ts` 292): plain, truthy string content. -/
def tryMessageContentString (net : Net) (msg : Option JVal) (mdl : JVal) :
    Except ORError (Option ImageGenerationResponse) × List String :=
  match optF msg "content" with
  | some (.str c) => if c != "" then tryStringContent net c mdl else (.ok none, [])
  | _ => (.ok none, [])

/-- Candidate shape 4 (`text.ts` 347–372): a message-level `image_url`
field, as a string or a nested object, fetched. -/
def tryMessageImageUrl (net : Net) (msg : Option JVal) (mdl : JVal) :
    Except ORError (Option ImageGenerationResponse) × List String :=
  match optF msg "image_url" with
  | some v =>
    if jsTruthy v then
      let imgUrl : Option JVal :=
        match v with
        | .str s => some (.str s)
        | _ => getField v "url"
      match imgUrl with
      | some u =>
        if jsTruthy u then
          match fetchImage net (jsToString u) with
          | (.error e, l) => (.error e, l)
          | (.ok b, l) => (.ok (some { image := b, model := mdl }), l)
        else (.ok none, [])
      | none => (.ok none, [])
    else (.ok none, [])
  | none => (.ok none, [])

/-- Candidate shape 5 (`text.ts` 375–404): `json.data[0]` with a
`b64_json` inline payload or a `url` field. -/
def tryDataArray (net : Net) (json : JVal) (mdl : JVal) :
    Except ORError (Option ImageGenerationResponse) × List String :=
  match optIdx0 (optF (some json) "data") with
  | some f =>
    if jsTruthy f then
      if optTruthy (getField f "b64_json") then
        match decodeBase64ToArrayBuffer ((getField f "b64_json").getD .null) with
        | some bs => (.ok (some { image := { bytes := bs, type := "image/png" }, model := mdl }), [])
        | none => (.error .decodeFailed, [])
      else if optTruthy (getField f "url") then
        match fetchImage net (jsToString ((getField f "url").getD .null)) with
        | (.error e, l) => (.error e, l)
        | (.ok b, l) => (.ok (some { image := b, model := mdl }), l)
      else (.ok none, [])
    else (.ok none, [])
  | none => (.ok none, [])

/-- The reply-normalization tail of `generateImage` (`text.ts`
228–439): the message guard, then the five candidate shapes in source
order, then the diagnostic error. -/
def normalizeImageReply (net : Net) (json : JVal) (model : String) (status : Nat) :
    Except ORError ImageGenerationResponse × List String :=
  let message := optF (optIdx0 (optF (some json) "choices")) "message"
  if !(optTruthy message) then
    (.error (.missingMessage (mkMsgSummary json) status), [])
  else
    let mdl := jsOrJ (optF (some json) "model") model
    match tryMessageImages net message mdl with
    | (.error e, l) => (.error e, l)
    | (.ok (some x), l) => (.ok x, l)
    | (.ok none, l1) =>
      match tryContentParts net message mdl with
      | (.error e, l) => (.error e, l1 ++ l)
      | (.ok (some x), l) => (.ok x, l1 ++ l)
      | (.ok none, l2) =>
        match tryMessageContentString net message mdl with
        | (.error e, l) => (.error e, l1 ++ (l2 ++ l))
        | (.ok (some x), l) => (.ok x, l1 ++ (l2 ++ l))
        | (.ok none, l3) =>
          match tryMessageImageUrl net message mdl with
          | (.error e, l) => (.error e, l1 ++ (l2 ++ (l3 ++ l)))
          | (.ok (some x), l) => (.ok x, l1 ++ (l2 ++ (l3 ++ l)))
          | (.ok none, l4) =>
            match tryDataArray net json mdl with
            | (.error e, l) => (.error e, l1 ++ (l2 ++ (l3 ++ (l4 ++ l))))
            | (.ok (some x), l) => (.ok x, l1 ++ (l2 ++ (l3 ++ (l4 ++ l))))
            | (.ok none, l5) =>
              (.error (.missingImageData (mkImgSummary json model) status),
               l1 ++ (l2 ++ (l3 ++ (l4 ++ l5))))

/-- `OpenRouterImageService.generateImage` (`text.ts` 99–440): config
checks, the single POST, status/parse layers, then normalization.  The
request body (size, prompt, provider extras) only shapes what is sent,
which the oracle keys by URL. -/
def generateImage (config : IOpenRouterConfig) (request : ImageGenerationRequest) (net : Net) :
    Except ORError ImageGenerationResponse × List String :=
  if config.apiKey = "" then
    (.error (.missingApiKey "Missing OPENROUTER_API_KEY in configuration"), [])
  else
    let model := resolveModel request.model config.defaultImageModel
    if model = "" || jsTrim model = "" then
      (.error (.invalidModel "OpenRouter image model is required but was not provided or is invalid"), [])
    else
      let endpoint := jsOr config.baseUrl defaultBaseUrl ++ "/chat/completions"
      let res := net endpoint
      match res.textResult with
      | none => (.error .textReadFailed, [endpoint])
      | some responseText =>
        if !res.ok then
          let errorDetails :=
            match res.jsonResult with
            | some j => stringifyPretty 0 j
            | none => responseText
          (.error (.imageHttpFailed
            ("OpenRouter image generation failed: " ++ toString res.status ++ " " ++ res.statusText)
            errorDetails res.status), [endpoint])
        else
          match res.jsonResult with
          | none =>
            (.error (.invalidJson
              ("OpenRouter image generation returned invalid JSON. Response: " ++ String.mk (responseText.data.take 500))
              responseText res.status), [endpoint])
          | some json =>
            match normalizeImageReply net json model res.status with
            | (r, l) => (r, endpoint :: l)

/-- `model.architecture?.output_modalities || []` (`models.ts` 74). -/
def outputModalities (m : OpenRouterModel) : List String :=
  (m.architecture.bind (fun a => a.output_modalities)).getD []

/-- The categorization loop (`models.ts` 72–86): image tag wins, else
text tag, else the model is dropped. -/
def categorizeLoop : List OpenRouterModel → List OpenRouterModel × List OpenRouterModel
  | [] => ([], [])
  | m :: rest =>
    let r := categorizeLoop rest
    if (outputModalities m).contains "image" then (r.1, m :: r.2)
    else if (outputModalities m).contains "text" then (m :: r.1, r.2)
    else r

/-- The sort order `(a, b) => a.name.localeCompare(b.name)`, for an
abstract locale comparator `cmp` (negative or zero means `a` may come
first). -/
def modelRel (cmp : String → String → Int) (a b : OpenRouterModel) : Prop :=
  cmp a.name b.name ≤ 0

instance (cmp : String → String → Int) : DecidableRel (modelRel cmp) :=
  fun a b => inferInstanceAs (Decidable (cmp a.name b.name ≤ 0))

/-- Categorize then sort both buckets by display name (`models.ts`
66–92); `Array.prototype.sort` is a stable sort, modelled by stable
insertion sort. -/
def categorizeModels (cmp : String → String → Int) (models : List OpenRouterModel) : CategorizedModels :=
  let r := categorizeLoop models
  { text := List.insertionSort (modelRel cmp) r.1
    image := List.insertionSort (modelRel cmp) r.2 }

/-- `OpenRouterModelsService.listModels` (`models.ts` 18–93). -/
def listModels (config : IOpenRouterConfig) (cmp : String → String → Int) (net : Net) :
    Except ORError ListModelsResponse × List String :=
  if config.apiKey = "" then
    (.error (.missingApiKey "Missing OPENROUTER_API_KEY in configuration"), [])
  else
    let endpoint := jsOr config.baseUrl defaultBaseUrl ++ "/models"
    let res := net endpoint
    if !res.ok then
      let text := res.textResult.getD ""
      let msg :=
        if text != "" then "OpenRouter models API failed: " ++ toString res.status ++ " - " ++ text
        else "OpenRouter models API failed: " ++ toString res.status
      (.error (.httpFailed msg), [endpoint])
    else
      match res.modelsJson with
      | none => (.error (.modelsInvalidJson "OpenRouter models API returned invalid JSON"), [endpoint])
      | some none => (.error (.modelsInvalidFormat "OpenRouter models API returned invalid response format: expected data array"), [endpoint])
      | some (some models) => (.ok { models := categorizeModels cmp models }, [endpoint])

/-- The `OpenRouterClient` constructor validation (`types.ts` 235–251),
which is all `createOpenRouterClient` adds on top of the services: the
validated configuration, or the construction-time error. -/
def createOpenRouterClient (config : IOpenRouterConfig) : Except ORError IOpenRouterConfig :=
  if config.apiKey = "" then .error (.missingApiKey "OpenRouter API key is required")
  else if config.defaultTextModel = "" then .error (.invalidModel "Default text model is required")
  else if config.defaultImageModel = "" then .error (.invalidModel "Default image model is required")
  else .ok config

/-! Specification-side combinators and fixtures used by the theorems. -/

/-- Run an ordered list of candidate extractors, stopping at the first
one that yields an image or throws; the returned fetch log contains
only the fetches of the candidates actually consulted. -/
def runCandidates : List (Except ORError (Option ImageGenerationResponse) × List String) →
    Except ORError (Option ImageGenerationResponse) × List String
  | [] => (.ok none, [])
  | c :: rest =>
    match c with
    | (.error e, l) => (.error e, l)
    | (.ok (some x), l) => (.ok (some x), l)
    | (.ok none, l) => ((runCandidates rest).1, l ++ (runCandidates rest).2)

/-- The five candidate reply shapes, in the order claimed by the spec. -/
def imageCandidates (net : Net) (json : JVal) (msg : Option JVal) (mdl : JVal) :
    List (Except ORError (Option ImageGenerationResponse) × List String) :=
  [tryMessageImages net msg mdl, tryContentParts net msg mdl,
   tryMessageContentString net msg mdl, tryMessageImageUrl net msg mdl,
   tryDataArray net json mdl]

/-- The spec-side normalizer: message guard, then the ordered candidate
list, then the diagnostic summarizing the reply shape. -/
def normalizeViaCandidates (net : Net) (json : JVal) (model : String) (status : Nat) :
    Except ORError ImageGenerationResponse × List String :=
  let message := optF (optIdx0 (optF (some json) "choices")) "message"
  if !(optTruthy message) then
    (.error (.missingMessage (mkMsgSummary json) status), [])
  else
    let mdl := jsOrJ (optF (some json) "model") model
    match runCandidates (imageCandidates net json message mdl) with
    | (.error e, l) => (.error e, l)
    | (.ok (some x), l) => (.ok x, l)
    | (.ok none, l) => (.error (.missingImageData (mkImgSummary json model) status), l)

/-- `needle` occurs as a contiguous substring of `hay`. -/
def containsStr (needle hay : String) : Prop :=
  needle.data <:+: hay.data

instance (needle hay : String) : Decidable (containsStr needle hay) :=
  inferInstanceAs (Decidable (needle.data <:+: hay.data))

/-- A valid configuration used by the concrete scenarios. -/
def cfg1 : IOpenRouterConfig :=
  { apiKey := "k", defaultTextModel := "mt", defaultImageModel := "mi" }

/-- A network returning status 200 with the given parsed JSON body. -/
def okNet (j : JVal) : Net :=
  fun _ => { ok := true, status := 200, textResult := some "body", jsonResult := some j }

/-- A network returning status 200 with the given models payload. -/
def modelsNet (ms : List OpenRouterModel) : Net :=
  fun _ => { ok := true, status := 200, modelsJson := some (some ms) }

/-- A chat-completion reply with the given first-choice message content
and reported model. -/
def textReply (c : JVal) (m : String) : JVal :=
  .obj [("choices", .arr [.obj [("message", .obj [("content", c)])]]), ("model", .str m)]

/-- A chat-completion reply whose first-choice message carries only the
given string content (no model field, no other shapes). -/
def contentReply (c : String) : JVal :=
  .obj [("choices", .arr [.obj [("message", .obj [("content", .str c)])]])]

/-- The §8 image scenario: a typed `message.images` entry holding a
one-byte png data-URL, reported model `m2`. -/
def imagesReply (url : String) : JVal :=
  .obj [("choices", .arr [.obj [("message", .obj [("images",
    .arr [.obj [("type", .str "image_url"), ("image_url", .obj [("url", .str url)])]])])]]),
    ("model", .str "m2")]

/-- A simple total locale comparator: byte-wise lexicographic order. -/
def cmpStd (a b : String) : Int :=
  if a < b then -1 else if b < a then 1 else 0

/-- A model declaring both the `text` and the `image` output tag. -/
def dualModel : OpenRouterModel :=
  { id := "b", name := "B", architecture := some { output_modalities := some ["text", "image"] } }

/-- The resolved chat-completions endpoint of the default base URL. -/
def chatEndpoint : String := defaultBaseUrl ++ "/chat/completions"

/-- The resolved models endpoint of the default base URL. -/
def modelsEndpoint : String := defaultBaseUrl ++ "/models"

/-- A configuration with an empty credential. -/
def cfg0 : IOpenRouterConfig := { apiKey := "", defaultTextModel := "m", defaultImageModel := "m" }

/-- A 401 reply whose body text is readable. -/
def r401 : HttpResponse :=
  { ok := false, status := 401, statusText := "Unauthorized",
    textResult := some "Invalid key body", jsonResult := none }

/-- A failing reply whose body read itself fails. -/
def r500 : HttpResponse :=
  { ok := false, status := 500, statusText := "Server Error", textResult := none }

/-- 101 base64-plausible characters whose bare decode fails (101 is not
a valid forgiving-base64 length). -/
def c101 : String := String.mk (List.replicate 101 'A')

/-! Helper lemmas shared by the claim theorems. -/

theorem takeWhile_append_stop {p : Char → Bool} :
    ∀ (xs : List Char) (y : Char) (ys : List Char), (∀ x ∈ xs, p x = true) → p y = false →
      ((xs ++ y :: ys).takeWhile p = xs ∧ (xs ++ y :: ys).dropWhile p = y :: ys)
  | [], y, ys, _, hy => by simp [List.takeWhile, List.dropWhile, hy]
  | x :: xs, y, ys, hall, hy => by
    have hx : p x = true := hall x (by simp)
    have ih := takeWhile_append_stop xs y ys (fun a ha => hall a (by simp [ha])) hy
    simp [List.takeWhile, List.dropWhile, hx, ih.1, ih.2]

theorem takeWhile_all {p : Char → Bool} :
    ∀ (xs : List Char), (∀ x ∈ xs, p x = true) → xs.takeWhile p = xs
  | [], _ => rfl
  | x :: xs, hall => by
    have hx : p x = true := hall x (by simp)
    simp [List.takeWhile, hx, takeWhile_all xs (fun a ha => hall a (by simp [ha]))]

/-- The data-URL pattern matches at position zero of a well-formed
`data:image/<sub>;base64,<payload>` character list, with the expected
groups. -/
theorem matchDataUrlAt_exact (subL payL : List Char)
    (hs1 : subL ≠ []) (hs2 : ∀ c ∈ subL, (c != ';') = true)
    (hp1 : payL ≠ []) (hp2 : ∀ c ∈ payL, ((c != '\n') && (c != '\r')) = true) :
    matchDataUrlAt ("data:image/".data ++ (subL ++ (";base64,".data ++ payL))) = some (subL, payL) := by
  unfold matchDataUrlAt
  rw [if_pos (by simp)]
  rw [show (11 : Nat) = ("data:image/".data).length from rfl, List.drop_left]
  simp only [show (";base64,".data : List Char) = [';', 'b', 'a', 's', 'e', '6', '4', ','] from rfl,
    List.cons_append, List.nil_append]
  have hstop := takeWhile_append_stop subL ';'
    ('b' :: 'a' :: 's' :: 'e' :: '6' :: '4' :: ',' :: payL) hs2 (by decide)
  simp only [hstop.1, hstop.2]
  rw [if_pos (by simp [hs1, List.isPrefixOf])]
  simp only [List.drop_succ_cons, List.drop_zero]
  rw [takeWhile_all payL hp2]
  rw [if_pos (by simp [hp1])]

theorem scanDataUrl_head {cs : List Char} {r : List Char × List Char}
    (h : matchDataUrlAt cs = some r) (hne : cs ≠ []) : scanDataUrl cs = some r := by
  cases cs with
  | nil => exact absurd rfl hne
  | cons c rest => simp [scanDataUrl, h]

theorem strMk_data (s : String) : String.mk s.data = s := rfl

theorem data_ne_nil {s : String} (h : s ≠ "") : s.data ≠ [] := by
  intro hd
  cases s with
  | mk d => cases hd; exact h rfl

theorem b64ish_no_newline {c : Char} (h : isB64ish c = true) :
    ((c != '\n') && (c != '\r')) = true := by
  by_cases h1 : c = '\n'
  · subst h1; exact absurd h (by decide)
  by_cases h2 : c = '\r'
  · subst h2; exact absurd h (by decide)
  simp [h1, h2]

/-- The categorization loop is membership-by-capability-tag: the text
bucket collects models tagged `text` but not `image`, the image bucket
those tagged `image`, in input order. -/
theorem categorizeLoop_eq_filter (models : List OpenRouterModel) :
    categorizeLoop models =
      (models.filter (fun m => (outputModalities m).contains "text" && !(outputModalities m).contains "image"),
       models.filter (fun m => (outputModalities m).contains "image")) := by
  induction models with
  | nil => rfl
  | cons m rest ih =>
    simp only [categorizeLoop, ih, List.filter_cons]
    by_cases hi : "image" ∈ outputModalities m <;>
      by_cases ht : "text" ∈ outputModalities m <;>
      simp [hi, ht]

theorem listModels_modelsNet (cmp : String → String → Int) (models : List OpenRouterModel) :
    (listModels cfg1 cmp (modelsNet models)).1 = .ok { models := categorizeModels cmp models } := by
  simp only [listModels]
  rw [if_neg (by decide)]
  simp [modelsNet]

theorem modelRel_cmpStd_iff (a b : OpenRouterModel) : modelRel cmpStd a b ↔ a.name ≤ b.name := by
  unfold modelRel cmpStd
  split_ifs with h1 h2
  · exact iff_of_true (by decide) (le_of_lt h1)
  · exact iff_of_false (by decide) (not_le.2 h2)
  · exact iff_of_true (by decide) (le_of_not_lt h2)

/-! The claim theorems. -/

/-- C1: generateImage's normalization tries the candidate reply shapes
in exactly the fixed source order — (1) the typed `message.images`
array, (2) multipart content parts, (3) plain string content (itself
tried as HTTP(S) URL, then data-URL, then bare base64), (4) a
message-level `image_url` field, (5) a top-level `data[0]` entry —
stopping at the first shape that succeeds or throws, consulting no
later shape (not even for fetches) after that, and failing with the
reply-shape diagnostic when no shape yields an image. -/
theorem image_shape_precedence :
    (∀ (net : Net) (json : JVal) (model : String) (status : Nat),
      normalizeImageReply net json model status = normalizeViaCandidates net json model status) ∧
    (∀ (x : ImageGenerationResponse) (lg : List String)
      (cs : List (Except ORError (Option ImageGenerationResponse) × List String)),
      runCandidates ((Except.ok (some x), lg) :: cs) = (Except.ok (some x), lg)) ∧
    (∀ (e : ORError) (lg : List String)
      (cs : List (Except ORError (Option ImageGenerationResponse) × List String)),
      runCandidates ((Except.error e, lg) :: cs) = (Except.error e, lg)) ∧
    (∀ (lg : List String)
      (cs : List (Except ORError (Option ImageGenerationResponse) × List String)),
      runCandidates ((Except.ok none, lg) :: cs) = ((runCandidates cs).1, lg ++ (runCandidates cs).2)) ∧
    (∀ (net : Net) (c : String) (mdl : JVal),
      tryStringContent net c mdl =
        runCandidates [tryStringHttp net c mdl, tryStringDataUrl c mdl, tryStringBare c mdl]) := by
  refine ⟨?_, fun x lg cs => rfl, fun e lg cs => rfl, fun lg cs => rfl, ?_⟩
  · intro net json model status
    simp only [normalizeImageReply, normalizeViaCandidates, imageCandidates]
    split
    · rfl
    · generalize tryMessageImages net (optF (optIdx0 (optF (some json) "choices")) "message")
        (jsOrJ (optF (some json) "model") model) = t1
      generalize tryContentParts net (optF (optIdx0 (optF (some json) "choices")) "message")
        (jsOrJ (optF (some json) "model") model) = t2
      generalize tryMessageContentString net (optF (optIdx0 (optF (some json) "choices")) "message")
        (jsOrJ (optF (some json) "model") model) = t3
      generalize tryMessageImageUrl net (optF (optIdx0 (optF (some json) "choices")) "message")
        (jsOrJ (optF (some json) "model") model) = t4
      generalize tryDataArray net json (jsOrJ (optF (some json) "model") model) = t5
      rcases t1 with ⟨e1 | (_ | x1), l1⟩ <;> try (simp [runCandidates])
      rcases t2 with ⟨e2 | (_ | x2), l2⟩ <;> try (simp [runCandidates])
      rcases t3 with ⟨e3 | (_ | x3), l3⟩ <;> try (simp [runCandidates])
      rcases t4 with ⟨e4 | (_ | x4), l4⟩ <;> try (simp [runCandidates])
      rcases t5 with ⟨e5 | (_ | x5), l5⟩ <;> simp [runCandidates]
  · intro net c mdl
    simp only [tryStringContent]
    generalize tryStringHttp net c mdl = t1
    generalize tryStringDataUrl c mdl = t2
    generalize tryStringBare c mdl = t3
    rcases t1 with ⟨e1 | (_ | x1), l1⟩ <;> try (simp [runCandidates])
    rcases t2 with ⟨e2 | (_ | x2), l2⟩ <;> try (simp [runCandidates])
    rcases t3 with ⟨e3 | (_ | x3), l3⟩ <;> simp [runCandidates]

/-- C2 (amended): completeText never succeeds with an empty text
payload — every successful result carries a non-empty string. -/
theorem completeText_nonempty_payload (config : IOpenRouterConfig)
    (request : TextGenerationRequest) (net : Net) (r : TextGenerationResponse)
    (h : (completeText config request net).1 = .ok r) : r.text ≠ "" := by
  simp only [completeText] at h
  split at h
  · simp at h
  split at h
  · simp at h
  split at h
  · simp at h
  split at h
  · simp at h
  split at h
  · split at h
    · simp at h
    · simp at h
      subst h
      simp_all
  · simp at h

theorem completeText_nonempty_payload_witness : ("Hello" : String) ≠ "" :=
  completeText_nonempty_payload cfg1 {} (okNet (textReply (.str "Hello") "m1"))
    { text := "Hello", model := .str "m1", rawResponse := textReply (.str "Hello") "m1" } rfl

/-- C2 counterexample: a reply whose typed images entry carries the
data-URL `data:image/png;base64, ` (payload a single space, which
forgiving-base64 decodes to zero bytes) makes generateImage succeed
with a zero-byte image, so an ImageGenerationResponse can carry an
empty payload. -/
theorem generateImage_zero_byte_success_cex :
    (generateImage cfg1 {} (okNet (imagesReply "data:image/png;base64, "))).1 =
      .ok { image := { bytes := [], type := "image/png" }, model := .str "m2" } := rfl

/-- C3 counterexample: a model declaring both the `text` and the
`image` output tags is excluded from the text bucket even though its
tags include "text", so text-bucket membership is not "exactly when the
tags include text". -/
theorem listModels_dual_tag_cex :
    (listModels cfg1 cmpStd (modelsNet [dualModel])).1 =
      .ok { models := { text := [], image := [dualModel] } } ∧
    "text" ∈ outputModalities dualModel :=
  ⟨rfl, by decide⟩

/-- C3 (amended): listModels places a model in the image bucket exactly
when its declared output tags include "image", and in the text bucket
exactly when they include "text" and do not include "image" (a model
with both tags goes only to the image bucket); a model with neither tag
is dropped without error, and both buckets are the stable sort of those
filters by display name under the locale comparator, hence sorted
whenever the comparator is transitive and total. -/
theorem listModels_categorization :
    (∀ (cmp : String → String → Int) (models : List OpenRouterModel),
      (listModels cfg1 cmp (modelsNet models)).1 = .ok { models := categorizeModels cmp models }) ∧
    (∀ (cmp : String → String → Int) (models : List OpenRouterModel),
      (categorizeModels cmp models).text =
        List.insertionSort (modelRel cmp)
          (models.filter (fun m => (outputModalities m).contains "text" && !(outputModalities m).contains "image")) ∧
      (categorizeModels cmp models).image =
        List.insertionSort (modelRel cmp)
          (models.filter (fun m => (outputModalities m).contains "image"))) ∧
    (∀ (cmp : String → String → Int) (models : List OpenRouterModel),
      Transitive (modelRel cmp) → Total (modelRel cmp) →
      List.Sorted (modelRel cmp) (categorizeModels cmp models).text ∧
      List.Sorted (modelRel cmp) (categorizeModels cmp models).image) := by
  refine ⟨listModels_modelsNet, ?_, ?_⟩
  · intro cmp models
    constructor <;> simp [categorizeModels, categorizeLoop_eq_filter]
  · intro cmp models htrans htotal
    haveI : IsTrans OpenRouterModel (modelRel cmp) := ⟨fun a b c hab hbc => htrans hab hbc⟩
    haveI : IsTotal OpenRouterModel (modelRel cmp) := ⟨htotal⟩
    constructor <;>
      simp only [categorizeModels] <;>
      exact List.sorted_insertionSort _ _

theorem listModels_categorization_witness :
    List.Sorted (modelRel cmpStd) (categorizeModels cmpStd [dualModel]).text ∧
    List.Sorted (modelRel cmpStd) (categorizeModels cmpStd [dualModel]).image :=
  listModels_categorization.2.2 cmpStd [dualModel]
    (fun _ _ _ hab hbc => (modelRel_cmpStd_iff _ _).2
      (le_trans ((modelRel_cmpStd_iff _ _).1 hab) ((modelRel_cmpStd_iff _ _).1 hbc)))
    (fun a b => by
      rcases le_total a.name b.name with h | h
      · exact Or.inl ((modelRel_cmpStd_iff a b).2 h)
      · exact Or.inr ((modelRel_cmpStd_iff b a).2 h))

/-- C4: when plain string content passes the bare-base64 guard (longer
than 100 characters, whitespace-stripped body base64-plausible) but the
speculative decode fails or the decoded size is outside the (100,
10 MiB) bounds, the candidate yields "no image" and the whole
normalization falls through to the remaining shapes, ending in the
shape diagnostic rather than a decode failure; by contrast a decode
failure in the data-URL branch (and every other class: configuration,
transport, shape, parse — distinct `ORError` constructors) is surfaced,
as the `decodeFailed` result of the concrete malformed data-URL
shows. -/
theorem bare_base64_swallowed :
    (∀ (c : String) (mdl : JVal),
      100 < c.data.length → bareBase64Test c = true →
      (atobDecode c = none ∨ ∀ bs, atobDecode c = some bs → ¬(100 < bs.length ∧ bs.length < 10485760)) →
      tryStringBare c mdl = (.ok none, [])) ∧
    (∀ (net : Net) (c : String) (model : String) (status : Nat),
      100 < c.data.length → bareBase64Test c = true →
      (atobDecode c = none ∨ ∀ bs, atobDecode c = some bs → ¬(100 < bs.length ∧ bs.length < 10485760)) →
      strStarts c "http://" = false → strStarts c "https://" = false →
      strStarts c "data:image/" = false →
      normalizeImageReply net (contentReply c) model status =
        (.error (.missingImageData (mkImgSummary (contentReply c) model) status), [])) ∧
    (tryStringDataUrl "data:image/png;base64,%%%%" (.str "m") = (.error .decodeFailed, [])) ∧
    ((generateImage cfg1 {} (okNet (contentReply "data:image/png;base64,%%%%"))).1 = .error .decodeFailed) := by
  have key : ∀ (c : String) (mdl : JVal),
      100 < c.data.length → bareBase64Test c = true →
      (atobDecode c = none ∨ ∀ bs, atobDecode c = some bs → ¬(100 < bs.length ∧ bs.length < 10485760)) →
      tryStringBare c mdl = (.ok none, []) := by
    intro c mdl h1 h2 h3
    simp only [tryStringBare]
    rw [if_pos (by simp [h2]; exact h1)]
    rcases h4 : atobDecode c with _ | bs
    · rfl
    · rcases h3 with h3 | h3
      · rw [h3] at h4; cases h4
      · have hno : ¬((decide (100 < bs.length) && decide (bs.length < 10485760)) = true) := by
          simp only [Bool.and_eq_true, decide_eq_true_eq, not_and]
          intro ha hb
          exact (h3 bs h4) ⟨ha, hb⟩
        simp [hno]
  refine ⟨key, ?_, rfl, rfl⟩
  intro net c model status h1 h2 h3 h4 h5 h6
  have hcne : (c != "") = true := by
    simp only [bne_iff_ne, ne_eq]
    intro he
    subst he
    simp at h1
  have hbare := key c (JVal.str model) h1 h2 h3
  simp [normalizeImageReply, contentReply, tryMessageImages, tryContentParts,
    tryMessageContentString, tryMessageImageUrl, tryDataArray, tryStringContent,
    tryStringHttp, tryStringDataUrl, optF, getField, optIdx0, List.lookup, optTruthy,
    jsTruthy, jsOrJ, h4, h5, h6, hcne, hbare]

theorem bare_base64_swallowed_witness :
    tryStringBare c101 (.str "m") = (.ok none, []) ∧
    normalizeImageReply (okNet .null) (contentReply c101) "m" 200 =
      (.error (.missingImageData (mkImgSummary (contentReply c101) "m") 200), []) :=
  ⟨bare_base64_swallowed.1 c101 (.str "m") (by decide) (by decide) (Or.inl (by decide)),
   bare_base64_swallowed.2.1 (okNet .null) c101 "m" 200 (by decide) (by decide)
     (Or.inl (by decide)) (by decide) (by decide) (by decide)⟩

/-- C5: completeText fails with the "missing content" error whenever
the first choice's message content is absent or not a string (also when
it is the empty string), never returning an empty-string fallback; for
a non-empty string content it returns exactly that string together with
the reply's model identifier — in particular the §8 scenario reply
yields text "Hello" and model "m1". -/
theorem completeText_content_contract :
    (∀ s m : String, s ≠ "" → m ≠ "" →
      (completeText cfg1 {} (okNet (textReply (.str s) m))).1 =
        .ok { text := s, model := .str m, rawResponse := textReply (.str s) m }) ∧
    (∀ (v : JVal) (m : String), (∀ t, v ≠ .str t) →
      (completeText cfg1 {} (okNet (textReply v m))).1 =
        .error (.missingContent "OpenRouter response missing content")) ∧
    ((completeText cfg1 {} (okNet (.obj [("choices", .arr [.obj [("message", .obj [])]])]))).1 =
      .error (.missingContent "OpenRouter response missing content")) := by
  refine ⟨?_, ?_, rfl⟩
  · intro s m hs hm
    simp only [completeText]
    rw [if_neg (by decide), if_neg (by decide)]
    simp [okNet, textReply, optF, getField, optIdx0, List.lookup, jsOrJ, jsTruthy, hs, hm]
  · intro v m hv
    cases v
    case str t => exact absurd rfl (hv t)
    all_goals
      simp only [completeText]
    all_goals
      rw [if_neg (by decide), if_neg (by decide)]
    all_goals
      simp [okNet, textReply, optF, getField, optIdx0, List.lookup]

theorem completeText_content_contract_witness :
    (completeText cfg1 {} (okNet (textReply (.str "Hello") "m1"))).1 =
      .ok { text := "Hello", model := .str "m1", rawResponse := textReply (.str "Hello") "m1" } ∧
    (completeText cfg1 {} (okNet (textReply (.num 7) "m1"))).1 =
      .error (.missingContent "OpenRouter response missing content") :=
  ⟨completeText_content_contract.1 "Hello" "m1" (by decide) (by decide),
   completeText_content_contract.2.1 (.num 7) "m1" (fun t h => by cases h)⟩

/-- C6: for any well-formed base64 data-URL
`data:image/<sub>;base64,<payload>` (subtype non-empty and
semicolon-free, payload non-empty over the base64-plausible alphabet),
parseImageUrl returns a blob whose bytes are exactly the forgiving-
base64 decode of the payload — hence of that byte length — tagged
`image/<sub>`, with no fetch; and the §8 scenario reply (a typed images
entry with `data:image/png;base64,QQ==`, model "m2") makes
generateImage return the single byte 65 ("A") typed `image/png` with
model "m2". -/
theorem data_url_decode_exact :
    (∀ (net : Net) (sub payload : String) (bs : List Nat),
      sub ≠ "" → (∀ c ∈ sub.data, (c != ';') = true) →
      payload ≠ "" → (∀ c ∈ payload.data, isB64ish c = true) →
      atobDecode payload = some bs →
      parseImageUrl net ("data:image/" ++ sub ++ ";base64," ++ payload) =
        (.ok (some { bytes := bs, type := "image/" ++ sub }), [])) ∧
    ((generateImage cfg1 {} (okNet (imagesReply "data:image/png;base64,QQ=="))).1 =
      .ok { image := { bytes := [65], type := "image/png" }, model := .str "m2" }) := by
  refine ⟨?_, rfl⟩
  intro net sub payload bs hs1 hs2 hp1 hp2 hdec
  have hmatch : dataUrlMatch ("data:image/" ++ sub ++ ";base64," ++ payload) = some (sub, payload) := by
    have hm := matchDataUrlAt_exact sub.data payload.data (data_ne_nil hs1) hs2
      (data_ne_nil hp1) (fun c hc => b64ish_no_newline (hp2 c hc))
    have hcs : ("data:image/" ++ sub ++ ";base64," ++ payload).data =
        "data:image/".data ++ (sub.data ++ (";base64,".data ++ payload.data)) := by simp
    unfold dataUrlMatch
    rw [hcs, scanDataUrl_head hm (by
      simp [show ("data:image/".data : List Char) = ['d', 'a', 't', 'a', ':', 'i', 'm', 'a', 'g', 'e', '/'] from rfl])]
    simp [strMk_data]
  unfold parseImageUrl
  rw [if_pos (by simp [strStarts, List.append_assoc])]
  rw [hmatch]
  simp [hdec, (by simp [hp1] : (payload != "") = true), (by simp [hs1] : (sub != "") = true)]

theorem data_url_decode_exact_witness :
    parseImageUrl (okNet .null) ("data:image/" ++ "png" ++ ";base64," ++ "QQ==") =
      (.ok (some { bytes := [65], type := "image/" ++ "png" }), []) :=
  data_url_decode_exact.1 (okNet .null) "png" "QQ==" [65]
    (by decide) (by decide) (by decide) (by decide) (by decide)

/-- C7 counterexample: on a 401 with body "Invalid key body",
generateImage's failure message is
"OpenRouter image generation failed: 401 Unauthorized" — it carries the
body only in the separate responseText detail, and the message does not
contain the body text, contradicting the claim that every operation's
failure message contains the returned body. -/
theorem generateImage_error_message_cex :
    (generateImage cfg1 {} (fun _ => r401)).1 =
      .error (.imageHttpFailed "OpenRouter image generation failed: 401 Unauthorized" "Invalid key body" 401) ∧
    ¬ containsStr "Invalid key body" "OpenRouter image generation failed: 401 Unauthorized" :=
  ⟨rfl, by decide⟩

/-- C7 (amended): on any non-2xx status, completeText and listModels
fail with a message containing the status code and the returned body
text (a failed body read degrading to the empty string), while
generateImage's message contains the status code and status text with
the body attached as a separate responseText detail, and a failure
reading generateImage's body is itself thrown; in every case exactly
one request is issued (no retry). -/
theorem http_error_reporting :
    (∀ (r : HttpResponse) (body : String) (cmp : String → String → Int),
      r.ok = false → r.textResult = some body →
      completeText cfg1 {} (fun _ => r) =
        (.error (.httpFailed ("OpenRouter chat completion failed: " ++ toString r.status ++ " " ++ body)), [chatEndpoint]) ∧
      listModels cfg1 cmp (fun _ => r) =
        (.error (.httpFailed (if body != "" then
            "OpenRouter models API failed: " ++ toString r.status ++ " - " ++ body
          else "OpenRouter models API failed: " ++ toString r.status)), [modelsEndpoint]) ∧
      generateImage cfg1 {} (fun _ => r) =
        (.error (.imageHttpFailed
          ("OpenRouter image generation failed: " ++ toString r.status ++ " " ++ r.statusText)
          (match r.jsonResult with | some j => stringifyPretty 0 j | none => body)
          r.status), [chatEndpoint]) ∧
      containsStr (toString r.status) ("OpenRouter chat completion failed: " ++ toString r.status ++ " " ++ body) ∧
      containsStr body ("OpenRouter chat completion failed: " ++ toString r.status ++ " " ++ body) ∧
      containsStr (toString r.status) ("OpenRouter image generation failed: " ++ toString r.status ++ " " ++ r.statusText)) ∧
    (∀ (r : HttpResponse), r.ok = false → r.textResult = none →
      completeText cfg1 {} (fun _ => r) =
        (.error (.httpFailed ("OpenRouter chat completion failed: " ++ toString r.status ++ " ")), [chatEndpoint]) ∧
      generateImage cfg1 {} (fun _ => r) = (.error .textReadFailed, [chatEndpoint])) := by
  constructor
  · intro r body cmp h1 h2
    refine ⟨?_, ?_, ?_, ?_, ?_, ?_⟩
    · simp only [completeText]
      rw [if_neg (by decide), if_neg (by decide)]
      simp [h1, h2, chatEndpoint, jsOr, cfg1]
    · simp only [listModels]
      rw [if_neg (by decide)]
      simp [h1, h2, modelsEndpoint, jsOr, cfg1]
    · simp only [generateImage]
      rw [if_neg (by decide), if_neg (by decide)]
      simp [h1, h2, chatEndpoint, jsOr, cfg1]
    · exact ⟨"OpenRouter chat completion failed: ".data, (" " ++ body).data, by simp⟩
    · exact ⟨("OpenRouter chat completion failed: " ++ toString r.status ++ " ").data, [], by simp⟩
    · exact ⟨"OpenRouter image generation failed: ".data, (" " ++ r.statusText).data, by simp⟩
  · intro r h1 h2
    constructor
    · simp only [completeText]
      rw [if_neg (by decide), if_neg (by decide)]
      simp [h1, h2, chatEndpoint, jsOr, cfg1]
    · simp only [generateImage]
      rw [if_neg (by decide), if_neg (by decide)]
      simp [h1, h2, chatEndpoint, jsOr, cfg1]

theorem http_error_reporting_witness :
    completeText cfg1 {} (fun _ => r401) =
      (.error (.httpFailed ("OpenRouter chat completion failed: " ++ toString r401.status ++ " " ++ "Invalid key body")),
       [chatEndpoint]) ∧
    containsStr "Invalid key body"
      ("OpenRouter chat completion failed: " ++ toString r401.status ++ " " ++ "Invalid key body") ∧
    generateImage cfg1 {} (fun _ => r500) = (.error .textReadFailed, [chatEndpoint]) :=
  ⟨(http_error_reporting.1 r401 "Invalid key body" cmpStd rfl rfl).1,
   (http_error_reporting.1 r401 "Invalid key body" cmpStd rfl rfl).2.2.2.2.1,
   (http_error_reporting.2 r500 rfl rfl).2⟩

/-- C8 counterexample: with a valid default model, a whitespace-only
per-call override (present but empty after trimming) is used as-is —
the call fails with the model-validation error before any fetch —
instead of falling back to the configured default, under which the same
call succeeds; so "when no such override is supplied the configured
default model is used instead" fails. -/
theorem whitespace_override_not_default_cex :
    (completeText cfg1 { model := some " " } (okNet (textReply (.str "Hello") "m1"))).1 =
      .error (.invalidModel "OpenRouter text model is required but was not provided or is invalid") ∧
    (completeText cfg1 { model := some " " } (okNet (textReply (.str "Hello") "m1"))).2 = [] ∧
    (completeText cfg1 {} (okNet (textReply (.str "Hello") "m1"))).1 =
      .ok { text := "Hello", model := .str "m1", rawResponse := textReply (.str "Hello") "m1" } :=
  ⟨rfl, rfl, rfl⟩

/-- C8 (amended): a non-empty per-call override — even whitespace-only
— is always the model in effect; the configured default is used exactly
when the override is absent or the empty string; with the credential
present, the call fails before any network request (the fetch log is
empty) precisely when the model in effect trims to the empty string,
and otherwise the request is issued. -/
theorem model_resolution_contract :
    (∀ s d : String, s ≠ "" → resolveModel (some s) d = s) ∧
    (∀ d : String, resolveModel none d = d ∧ resolveModel (some "") d = d) ∧
    (∀ (config : IOpenRouterConfig) (request : TextGenerationRequest) (net : Net),
      config.apiKey ≠ "" →
      jsTrim (resolveModel request.model config.defaultTextModel) = "" →
      completeText config request net =
        (.error (.invalidModel "OpenRouter text model is required but was not provided or is invalid"), [])) ∧
    (∀ (config : IOpenRouterConfig) (request : ImageGenerationRequest) (net : Net),
      config.apiKey ≠ "" →
      jsTrim (resolveModel request.model config.defaultImageModel) = "" →
      generateImage config request net =
        (.error (.invalidModel "OpenRouter image model is required but was not provided or is invalid"), [])) ∧
    (∀ (config : IOpenRouterConfig) (request : TextGenerationRequest) (net : Net),
      config.apiKey ≠ "" →
      jsTrim (resolveModel request.model config.defaultTextModel) ≠ "" →
      (completeText config request net).2 = [jsOr config.baseUrl defaultBaseUrl ++ "/chat/completions"]) ∧
    (∀ (config : IOpenRouterConfig) (request : ImageGenerationRequest) (net : Net),
      config.apiKey ≠ "" →
      jsTrim (resolveModel request.model config.defaultImageModel) ≠ "" →
      (generateImage config request net).2.head? =
        some (jsOr config.baseUrl defaultBaseUrl ++ "/chat/completions")) := by
  refine ⟨?_, ?_, ?_, ?_, ?_, ?_⟩
  · intro s d hs; simp [resolveModel, jsOr, hs]
  · intro d; exact ⟨rfl, rfl⟩
  · intro config request net h1 h2
    simp [completeText, h1, h2]
  · intro config request net h1 h2
    simp [generateImage, h1, h2]
  · intro config request net h1 h2
    have hm : resolveModel request.model config.defaultTextModel ≠ "" := by
      intro he; exact h2 (by rw [he]; rfl)
    simp only [completeText]
    rw [if_neg (by simp [h1]), if_neg (by simp [hm, h2])]
    by_cases hok : (net (jsOr config.baseUrl defaultBaseUrl ++ "/chat/completions")).ok = false
    · simp [hok]
    · simp only [hok, if_false, Bool.false_eq_true]
      cases hj : (net (jsOr config.baseUrl defaultBaseUrl ++ "/chat/completions")).jsonResult with
      | none => simp
      | some json =>
        rcases hc : optF (optF (optIdx0 (optF (some json) "choices")) "message") "content" with _ | v
        · simp [hc]
        · cases v with
          | str s =>
            simp [hc]
            split <;> rfl
          | null => simp [hc]
          | bool b => simp [hc]
          | num n => simp [hc]
          | arr xs => simp [hc]
          | obj fs => simp [hc]
  · intro config request net h1 h2
    have hm : resolveModel request.model config.defaultImageModel ≠ "" := by
      intro he; exact h2 (by rw [he]; rfl)
    simp only [generateImage]
    rw [if_neg (by simp [h1]), if_neg (by simp [hm, h2])]
    cases ht : (net (jsOr config.baseUrl defaultBaseUrl ++ "/chat/completions")).textResult with
    | none => simp
    | some t =>
      by_cases hok : (net (jsOr config.baseUrl defaultBaseUrl ++ "/chat/completions")).ok = false
      · simp [hok]
      · simp only [hok, if_false, Bool.false_eq_true]
        cases hj : (net (jsOr config.baseUrl defaultBaseUrl ++ "/chat/completions")).jsonResult with
        | none => simp
        | some json => simp

theorem model_resolution_contract_witness :
    resolveModel (some "override") "dflt" = "override" ∧
    resolveModel none "dflt" = "dflt" ∧
    completeText cfg1 { model := some " " } (okNet .null) =
      (.error (.invalidModel "OpenRouter text model is required but was not provided or is invalid"), []) ∧
    generateImage cfg1 { model := some " " } (okNet .null) =
      (.error (.invalidModel "OpenRouter image model is required but was not provided or is invalid"), []) ∧
    (completeText cfg1 {} (okNet .null)).2 = [chatEndpoint] ∧
    (generateImage cfg1 {} (okNet .null)).2.head? = some chatEndpoint :=
  ⟨model_resolution_contract.1 "override" "dflt" (by decide),
   (model_resolution_contract.2.1 "dflt").1,
   model_resolution_contract.2.2.1 cfg1 { model := some " " } (okNet .null) (by decide) (by decide),
   model_resolution_contract.2.2.2.1 cfg1 { model := some " " } (okNet .null) (by decide) (by decide),
   model_resolution_contract.2.2.2.2.1 cfg1 {} (okNet .null) (by decide) (by decide),
   model_resolution_contract.2.2.2.2.2 cfg1 {} (okNet .null) (by decide) (by decide)⟩

/-- C9: with an empty credential every operation — completeText,
generateImage, listModels — fails with the configuration error naming
the missing OPENROUTER_API_KEY before any network request (the fetch
log is empty), and the factory createOpenRouterClient rejects the
configuration at construction time. -/
theorem empty_credential_rejected
    (config : IOpenRouterConfig) (request : TextGenerationRequest)
    (ireq : ImageGenerationRequest) (cmp : String → String → Int) (net : Net)
    (h : config.apiKey = "") :
    completeText config request net =
      (.error (.missingApiKey "Missing OPENROUTER_API_KEY in configuration"), []) ∧
    generateImage config ireq net =
      (.error (.missingApiKey "Missing OPENROUTER_API_KEY in configuration"), []) ∧
    listModels config cmp net =
      (.error (.missingApiKey "Missing OPENROUTER_API_KEY in configuration"), []) ∧
    createOpenRouterClient config = .error (.missingApiKey "OpenRouter API key is required") := by
  refine ⟨?_, ?_, ?_, ?_⟩ <;> simp [completeText, generateImage, listModels, createOpenRouterClient, h]

theorem empty_credential_rejected_witness :
    completeText cfg0 {} (okNet .null) =
      (.error (.missingApiKey "Missing OPENROUTER_API_KEY in configuration"), []) ∧
    generateImage cfg0 {} (okNet .null) =
      (.error (.missingApiKey "Missing OPENROUTER_API_KEY in configuration"), []) ∧
    listModels cfg0 cmpStd (okNet .null) =
      (.error (.missingApiKey "Missing OPENROUTER_API_KEY in configuration"), []) ∧
    createOpenRouterClient cfg0 = .error (.missingApiKey "OpenRouter API key is required") :=
  empty_credential_rejected cfg0 {} {} cmpStd (okNet .null) rfl

/-- C10: the two buckets listModels returns are disjoint: a model
declaring both the "image" and the "text" output tags is placed in the
image bucket and never in the text bucket, and no model value is ever a
member of both output lists. -/
theorem listModels_buckets_disjoint :
    ∀ (cmp : String → String → Int) (models : List OpenRouterModel) (m : OpenRouterModel),
      (m ∈ (categorizeModels cmp models).text → m ∉ (categorizeModels cmp models).image) ∧
      (m ∈ models → "image" ∈ outputModalities m → "text" ∈ outputModalities m →
        m ∈ (categorizeModels cmp models).image ∧ m ∉ (categorizeModels cmp models).text) ∧
      (listModels cfg1 cmp (modelsNet models)).1 = .ok { models := categorizeModels cmp models } := by
  intro cmp models m
  have htext : m ∈ (categorizeModels cmp models).text ↔
      m ∈ models ∧ ("text" ∈ outputModalities m ∧ "image" ∉ outputModalities m) := by
    simp [categorizeModels, categorizeLoop_eq_filter, List.mem_insertionSort, List.mem_filter]
  have himg : m ∈ (categorizeModels cmp models).image ↔
      m ∈ models ∧ "image" ∈ outputModalities m := by
    simp [categorizeModels, categorizeLoop_eq_filter, List.mem_insertionSort, List.mem_filter]
  refine ⟨?_, ?_, listModels_modelsNet cmp models⟩
  · intro hT hI
    exact (htext.1 hT).2.2 (himg.1 hI).2
  · intro hm hi ht
    exact ⟨himg.2 ⟨hm, hi⟩, fun hT => (htext.1 hT).2.2 hi⟩

theorem listModels_buckets_disjoint_witness :
    dualModel ∈ (categorizeModels cmpStd [dualModel]).image ∧
    dualModel ∉ (categorizeModels cmpStd [dualModel]).text :=
  (listModels_buckets_disjoint cmpStd [dualModel] dualModel).2.1 (by simp) (by decide) (by decide)

end ORC
